import Mathlib

/-!
Verification development for the `pythonAST` repository.

The AST node model and its rendering live in `src/parser/ast_nodes.py`;
the command-line driver lives in `src/python_ast_main.py`.  Each Python
class becomes a constructor of the inductive `ASTNode`; the recursive
`print_node` method becomes the function `print_node` below.  A Python
statement `print(' ' * k + text)` is embedded as the emitted pair
`(k, text)`; the byte-level output is recovered by `pline`/`rendered`.
Python floats are carried as their printed text (rendering only
interpolates them into the tag line, never computes with them), and the
insertion-ordered `dict` of keyword arguments is carried as an
association list.
-/

inductive ASTNode where
  | IntLiteralNode (value : Int)
  | FloatLiteralNode (value : String)
  | StringLiteralNode (value : String) (is_f_string : Bool)
  | BoolLiteralNode (value : Bool)
  | NoneLiteralNode
  | IdentifierNode (name : String)
  | BinaryOpNode (op : String) (left right : ASTNode)
  | AssignmentNode (target value : ASTNode)
  | FunctionCallNode (callable : ASTNode) (arguments : List ASTNode)
      (keyword_args : List (String × ASTNode))
  | ParameterNode (name : String) (default_value : Option ASTNode) (is_keyword_only : Bool)
  | FunctionDefNode (name : String) (parameters : List ASTNode) (body : List ASTNode)
  | ClassDefNode (name : String) (bases : List ASTNode) (body : List ASTNode)
  | ReturnNode (value : Option ASTNode)
  | ImportNode (module : String) (al : String)
  | FromImportNode (module : String) (imports : List (String × String))
  | IfNode (condition : ASTNode) (then_body : List ASTNode) (else_body : List ASTNode)
  | WhileNode (condition : ASTNode) (body : List ASTNode)
  | ForNode (target : ASTNode) (iterable : ASTNode) (body : List ASTNode)
  | AttributeNode (value : ASTNode) (attr : String)
  | ListNode (elements : List ASTNode)
  | DictNode (items : List (ASTNode × ASTNode))
  | SubscriptNode (value : ASTNode) (index : ASTNode)
  | PassNode
  | BreakNode
  | ContinueNode

mutual

/-- Embedding of the `print_node` methods of `src/parser/ast_nodes.py`.
Each `print(' ' * k + text)` emits the pair `(k, text)`, in program order. -/
def print_node : ASTNode → Nat → List (Nat × String)
  | .IntLiteralNode value, indent => [(indent, "IntLiteral(" ++ toString value ++ ")")]
  | .FloatLiteralNode value, indent => [(indent, "FloatLiteral(" ++ value ++ ")")]
  | .StringLiteralNode value is_f_string, indent =>
      [(indent, (if is_f_string then "FString" else "StringLiteral") ++ "(\"" ++ value ++ "\")")]
  | .BoolLiteralNode value, indent =>
      [(indent, "BoolLiteral(" ++ (if value then "True" else "False") ++ ")")]
  | .NoneLiteralNode, indent => [(indent, "None")]
  | .IdentifierNode name, indent => [(indent, "Identifier(" ++ name ++ ")")]
  | .BinaryOpNode op left right, indent =>
      (indent, "BinaryOp(" ++ op ++ ")") ::
        (print_node left (indent + 2) ++ print_node right (indent + 2))
  | .AssignmentNode target value, indent =>
      (indent, "Assignment") :: (indent + 2, "Target:") ::
        (print_node target (indent + 4) ++ (indent + 2, "Value:") :: print_node value (indent + 4))
  | .FunctionCallNode callable arguments keyword_args, indent =>
      (indent, "FunctionCall") :: (indent + 2, "Callable:") ::
        (print_node callable (indent + 4)
          ++ (if arguments.isEmpty then [] else
                (indent + 2, "Arguments:") :: print_node_list arguments (indent + 4))
          ++ (if keyword_args.isEmpty then [] else
                (indent + 2, "Keyword Arguments:") :: print_node_kwargs keyword_args indent))
  | .ParameterNode name default_value is_keyword_only, indent =>
      (indent, "Parameter(" ++ (name ++ (if is_keyword_only then ", keyword-only" else "")) ++ ")") ::
        (match default_value with
          | none => []
          | some dv => (indent + 2, "Default Value:") :: print_node dv (indent + 4))
  | .FunctionDefNode name parameters body, indent =>
      (indent, "FunctionDef(" ++ name ++ ")") :: (indent + 2, "Parameters:") ::
        (print_node_list parameters (indent + 4)
          ++ (indent + 2, "Body:") :: print_node_list body (indent + 4))
  | .ClassDefNode name bases body, indent =>
      (indent, "ClassDef(" ++ name ++ ")") ::
        ((if bases.isEmpty then [] else
            (indent + 2, "Bases:") :: print_node_list bases (indent + 4))
          ++ (indent + 2, "Body:") :: print_node_list body (indent + 4))
  | .ReturnNode value, indent =>
      (indent, "Return") :: (match value with | none => [] | some v => print_node v (indent + 2))
  | .ImportNode module al, indent =>
      [(indent, "Import(" ++ (module ++ (if al = "" then "" else " as " ++ al)) ++ ")")]
  | .FromImportNode module imports, indent =>
      (indent, "FromImport(" ++ module ++ ")") :: (indent + 2, "Names:") ::
        imports.map (fun nv => (indent + 4, nv.1 ++ (if nv.2 = "" then "" else " as " ++ nv.2)))
  | .IfNode condition then_body else_body, indent =>
      (indent, "If") :: (indent + 2, "Condition:") ::
        (print_node condition (indent + 4)
          ++ (indent + 2, "Then:") :: print_node_list then_body (indent + 4)
          ++ (if else_body.isEmpty then [] else
                (indent + 2, "Else:") :: print_node_list else_body (indent + 4)))
  | .WhileNode condition body, indent =>
      (indent, "While") :: (indent + 2, "Condition:") ::
        (print_node condition (indent + 4)
          ++ (indent + 2, "Body:") :: print_node_list body (indent + 4))
  | .ForNode target iterable body, indent =>
      (indent, "For") :: (indent + 2, "Target:") ::
        (print_node target (indent + 4)
          ++ (indent + 2, "Iterable:") :: print_node iterable (indent + 4)
          ++ (indent + 2, "Body:") :: print_node_list body (indent + 4))
  | .AttributeNode value attr, indent =>
      (indent, "Attribute(" ++ attr ++ ")") :: (indent + 2, "Value:") :: print_node value (indent + 4)
  | .ListNode elements, indent =>
      (indent, "List") ::
        (if elements.isEmpty then [] else
          (indent + 2, "Elements:") :: print_node_list elements (indent + 4))
  | .DictNode items, indent =>
      (indent, "Dict") ::
        (if items.isEmpty then [] else
          (indent + 2, "Items:") :: print_node_items items indent)
  | .SubscriptNode value index, indent =>
      (indent, "Subscript") :: (indent + 2, "Value:") ::
        (print_node value (indent + 4)
          ++ (indent + 2, "Index:") :: print_node index (indent + 4))
  | .PassNode, indent => [(indent, "Pass")]
  | .BreakNode, indent => [(indent, "Break")]
  | .ContinueNode, indent => [(indent, "Continue")]

/-- A `for x in xs: x.print_node(indent)` loop over child nodes. -/
def print_node_list : List ASTNode → Nat → List (Nat × String)
  | [], _ => []
  | n :: ns, indent => print_node n indent ++ print_node_list ns indent

/-- The keyword-argument loop of `FunctionCallNode.print_node`:
label `key ++ ":"` at `indent + 4`, value at `indent + 6`
(`indent` is the owning node's depth). -/
def print_node_kwargs : List (String × ASTNode) → Nat → List (Nat × String)
  | [], _ => []
  | (key, value) :: rest, indent =>
      (indent + 4, key ++ ":") :: (print_node value (indent + 6) ++ print_node_kwargs rest indent)

/-- The item loop of `DictNode.print_node`: `"Key:"`/`"Value:"` labels at
`indent + 4`, the key/value nodes at `indent + 6`. -/
def print_node_items : List (ASTNode × ASTNode) → Nat → List (Nat × String)
  | [], _ => []
  | (key, value) :: rest, indent =>
      (indent + 4, "Key:") ::
        (print_node key (indent + 6)
          ++ (indent + 4, "Value:") :: (print_node value (indent + 6) ++ print_node_items rest indent))

end

/-- `' ' * n` -/
def spaces (n : Nat) : String := String.mk (List.replicate n ' ')

/-- The physical line produced by one `print` call. -/
def pline (p : Nat × String) : String := spaces p.1 ++ p.2

/-- The exact byte stream `print_node` writes to stdout (each `print`
appends a newline). -/
def rendered (n : ASTNode) (indent : Nat) : String :=
  String.join ((print_node n indent).map (fun p => pline p ++ "\n"))

/-- Python's `x or []` / `x or {}` idiom used by the `__init__` methods:
a missing (`None`) or falsy (empty) collection argument is replaced by a
fresh empty collection. -/
def py_or_empty {α : Type} (x : Option (List α)) : List α :=
  match x with
  | none => []
  | some l => if l.isEmpty then [] else l

/-- `FunctionCallNode.__init__(self, callable_obj, arguments=None, keyword_args=None)` -/
def FunctionCallNode_init (callable_obj : ASTNode) (arguments : Option (List ASTNode))
    (keyword_args : Option (List (String × ASTNode))) : ASTNode :=
  .FunctionCallNode callable_obj (py_or_empty arguments) (py_or_empty keyword_args)

/-- `FunctionDefNode.__init__(self, name, parameters=None, body=None)` -/
def FunctionDefNode_init (name : String) (parameters : Option (List ASTNode))
    (body : Option (List ASTNode)) : ASTNode :=
  .FunctionDefNode name (py_or_empty parameters) (py_or_empty body)

/-- `ClassDefNode.__init__(self, name, bases=None, body=None)` -/
def ClassDefNode_init (name : String) (bases : Option (List ASTNode))
    (body : Option (List ASTNode)) : ASTNode :=
  .ClassDefNode name (py_or_empty bases) (py_or_empty body)

/-- `IfNode.__init__(self, condition, then_body=None, else_body=None)` -/
def IfNode_init (condition : ASTNode) (then_body : Option (List ASTNode))
    (else_body : Option (List ASTNode)) : ASTNode :=
  .IfNode condition (py_or_empty then_body) (py_or_empty else_body)

/-- `WhileNode.__init__(self, condition, body=None)` -/
def WhileNode_init (condition : ASTNode) (body : Option (List ASTNode)) : ASTNode :=
  .WhileNode condition (py_or_empty body)

/-- `ForNode.__init__(self, target, iterable, body=None)` -/
def ForNode_init (target iterable : ASTNode) (body : Option (List ASTNode)) : ASTNode :=
  .ForNode target iterable (py_or_empty body)

/-- `ListNode.__init__(self, elements=None)` -/
def ListNode_init (elements : Option (List ASTNode)) : ASTNode :=
  .ListNode (py_or_empty elements)

/-- `DictNode.__init__(self, items=None)` -/
def DictNode_init (items : Option (List (ASTNode × ASTNode))) : ASTNode :=
  .DictNode (py_or_empty items)

/-- `FromImportNode.__init__(self, module, imports=None)` -/
def FromImportNode_init (module : String) (imports : Option (List (String × String))) : ASTNode :=
  .FromImportNode module (py_or_empty imports)

/-- Outcome of the pipeline the driver runs inside its `try` block
(`src/python_ast_main.py`): either the parsed module forest, or the
exception that propagated out.  `lexicalError` is modelled from the spec:
the Lexer is not under `src/`; per the spec's error taxonomy (§7) it
raises a LexicalError, a taxonomy member distinct from SyntaxError, so
in the driver it is caught by the final `except Exception` clause. -/
inductive PipelineOutcome where
  | ok (nodes : List ASTNode)
  | fileAccessError
  | lexicalError (msg : String)
  | synError (msg : String)
  | internalError (msg : String)

/-- Embedding of `main` (`src/python_ast_main.py`): output lines paired
with the returned exit status, as a function of the input file name and
of how the `try` block ended.  `synError` models a raised `SyntaxError`,
`fileAccessError` a `FileNotFoundError`, `internalError` any other
exception. -/
def main_run (input_file : String) : PipelineOutcome → List String × Nat
  | .ok nodes =>
      (("Abstract Syntax Tree for " ++ input_file ++ ":")
        :: String.mk (List.replicate 50 '-')
        :: ((nodes.map (fun n => print_node n 0)).flatten.map pline), 0)
  | .fileAccessError => (["Error: Could not open file " ++ input_file], 1)
  | .synError e => (["Syntax Error: " ++ e], 1)
  | .lexicalError e => (["Error: " ++ e], 1)
  | .internalError e => (["Error: " ++ e], 1)

/-- The Python class (= variant) a node belongs to. -/
def ctorName : ASTNode → String
  | .IntLiteralNode _ => "IntLiteralNode"
  | .FloatLiteralNode _ => "FloatLiteralNode"
  | .StringLiteralNode _ _ => "StringLiteralNode"
  | .BoolLiteralNode _ => "BoolLiteralNode"
  | .NoneLiteralNode => "NoneLiteralNode"
  | .IdentifierNode _ => "IdentifierNode"
  | .BinaryOpNode _ _ _ => "BinaryOpNode"
  | .AssignmentNode _ _ => "AssignmentNode"
  | .FunctionCallNode _ _ _ => "FunctionCallNode"
  | .ParameterNode _ _ _ => "ParameterNode"
  | .FunctionDefNode _ _ _ => "FunctionDefNode"
  | .ClassDefNode _ _ _ => "ClassDefNode"
  | .ReturnNode _ => "ReturnNode"
  | .ImportNode _ _ => "ImportNode"
  | .FromImportNode _ _ => "FromImportNode"
  | .IfNode _ _ _ => "IfNode"
  | .WhileNode _ _ => "WhileNode"
  | .ForNode _ _ _ => "ForNode"
  | .AttributeNode _ _ => "AttributeNode"
  | .ListNode _ => "ListNode"
  | .DictNode _ => "DictNode"
  | .SubscriptNode _ _ => "SubscriptNode"
  | .PassNode => "PassNode"
  | .BreakNode => "BreakNode"
  | .ContinueNode => "ContinueNode"

/-- The concrete subclasses of `ASTNode` in `src/parser/ast_nodes.py`,
in source order.  Each of them defines its own `print_node` method. -/
def concrete_ast_variants : List String :=
  ["IntLiteralNode", "FloatLiteralNode", "StringLiteralNode", "BoolLiteralNode",
   "NoneLiteralNode", "IdentifierNode", "BinaryOpNode", "AssignmentNode",
   "FunctionCallNode", "ParameterNode", "FunctionDefNode", "ClassDefNode",
   "ReturnNode", "ImportNode", "FromImportNode", "IfNode", "WhileNode",
   "ForNode", "AttributeNode", "ListNode", "DictNode", "SubscriptNode",
   "PassNode", "BreakNode", "ContinueNode"]

/-- The dynamic dispatch of `node.print_node(...)`: if the node's class
overrides `print_node` the override runs, otherwise the base-class
fallback `raise NotImplementedError(...)` fires. -/
def print_node_checked (n : ASTNode) (indent : Nat) : Except String (List (Nat × String)) :=
  if concrete_ast_variants.contains (ctorName n) then .ok (print_node n indent)
  else .error "Each AST node must implement print_node"

mutual

/-- Stateful form of `print_node`: the output stream printed so far is
threaded through, and the node is returned as observed after the
traversal (each field rebuilt from what the traversal saw and recursed
into).  Used to state that rendering only appends to the output and
leaves every field of every visited node unchanged. -/
def print_into : ASTNode → Nat → List (Nat × String) → ASTNode × List (Nat × String)
  | .IntLiteralNode value, indent, out =>
      (.IntLiteralNode value, out ++ [(indent, "IntLiteral(" ++ toString value ++ ")")])
  | .FloatLiteralNode value, indent, out =>
      (.FloatLiteralNode value, out ++ [(indent, "FloatLiteral(" ++ value ++ ")")])
  | .StringLiteralNode value f, indent, out =>
      (.StringLiteralNode value f,
        out ++ [(indent, (if f then "FString" else "StringLiteral") ++ "(\"" ++ value ++ "\")")])
  | .BoolLiteralNode value, indent, out =>
      (.BoolLiteralNode value,
        out ++ [(indent, "BoolLiteral(" ++ (if value then "True" else "False") ++ ")")])
  | .NoneLiteralNode, indent, out => (.NoneLiteralNode, out ++ [(indent, "None")])
  | .IdentifierNode name, indent, out =>
      (.IdentifierNode name, out ++ [(indent, "Identifier(" ++ name ++ ")")])
  | .BinaryOpNode op left right, indent, out =>
      let r1 := print_into left (indent + 2) (out ++ [(indent, "BinaryOp(" ++ op ++ ")")])
      let r2 := print_into right (indent + 2) r1.2
      (.BinaryOpNode op r1.1 r2.1, r2.2)
  | .AssignmentNode target value, indent, out =>
      let r1 := print_into target (indent + 4) (out ++ [(indent, "Assignment"), (indent + 2, "Target:")])
      let r2 := print_into value (indent + 4) (r1.2 ++ [(indent + 2, "Value:")])
      (.AssignmentNode r1.1 r2.1, r2.2)
  | .FunctionCallNode callable arguments keyword_args, indent, out =>
      let rc := print_into callable (indent + 4)
        (out ++ [(indent, "FunctionCall"), (indent + 2, "Callable:")])
      let ra := if arguments.isEmpty then (arguments, rc.2)
        else print_into_list arguments (indent + 4) (rc.2 ++ [(indent + 2, "Arguments:")])
      let rk := if keyword_args.isEmpty then (keyword_args, ra.2)
        else print_into_kwargs keyword_args indent (ra.2 ++ [(indent + 2, "Keyword Arguments:")])
      (.FunctionCallNode rc.1 ra.1 rk.1, rk.2)
  | .ParameterNode name dv kwonly, indent, out =>
      let out0 := out ++
        [(indent, "Parameter(" ++ (name ++ (if kwonly then ", keyword-only" else "")) ++ ")")]
      match dv with
      | none => (.ParameterNode name none kwonly, out0)
      | some v =>
          let r := print_into v (indent + 4) (out0 ++ [(indent + 2, "Default Value:")])
          (.ParameterNode name (some r.1) kwonly, r.2)
  | .FunctionDefNode name ps body, indent, out =>
      let rp := print_into_list ps (indent + 4)
        (out ++ [(indent, "FunctionDef(" ++ name ++ ")"), (indent + 2, "Parameters:")])
      let rb := print_into_list body (indent + 4) (rp.2 ++ [(indent + 2, "Body:")])
      (.FunctionDefNode name rp.1 rb.1, rb.2)
  | .ClassDefNode name bases body, indent, out =>
      let out0 := out ++ [(indent, "ClassDef(" ++ name ++ ")")]
      let rb := if bases.isEmpty then (bases, out0)
        else print_into_list bases (indent + 4) (out0 ++ [(indent + 2, "Bases:")])
      let rb2 := print_into_list body (indent + 4) (rb.2 ++ [(indent + 2, "Body:")])
      (.ClassDefNode name rb.1 rb2.1, rb2.2)
  | .ReturnNode dv, indent, out =>
      let out0 := out ++ [(indent, "Return")]
      match dv with
      | none => (.ReturnNode none, out0)
      | some v =>
          let r := print_into v (indent + 2) out0
          (.ReturnNode (some r.1), r.2)
  | .ImportNode module al, indent, out =>
      (.ImportNode module al,
        out ++ [(indent, "Import(" ++ (module ++ (if al = "" then "" else " as " ++ al)) ++ ")")])
  | .FromImportNode module imports, indent, out =>
      (.FromImportNode module imports,
        out ++ ((indent, "FromImport(" ++ module ++ ")") :: (indent + 2, "Names:") ::
          imports.map (fun nv => (indent + 4, nv.1 ++ (if nv.2 = "" then "" else " as " ++ nv.2)))))
  | .IfNode c tb eb, indent, out =>
      let rc := print_into c (indent + 4) (out ++ [(indent, "If"), (indent + 2, "Condition:")])
      let rt := print_into_list tb (indent + 4) (rc.2 ++ [(indent + 2, "Then:")])
      let re := if eb.isEmpty then (eb, rt.2)
        else print_into_list eb (indent + 4) (rt.2 ++ [(indent + 2, "Else:")])
      (.IfNode rc.1 rt.1 re.1, re.2)
  | .WhileNode c body, indent, out =>
      let rc := print_into c (indent + 4) (out ++ [(indent, "While"), (indent + 2, "Condition:")])
      let rb := print_into_list body (indent + 4) (rc.2 ++ [(indent + 2, "Body:")])
      (.WhileNode rc.1 rb.1, rb.2)
  | .ForNode t it body, indent, out =>
      let rt := print_into t (indent + 4) (out ++ [(indent, "For"), (indent + 2, "Target:")])
      let ri := print_into it (indent + 4) (rt.2 ++ [(indent + 2, "Iterable:")])
      let rb := print_into_list body (indent + 4) (ri.2 ++ [(indent + 2, "Body:")])
      (.ForNode rt.1 ri.1 rb.1, rb.2)
  | .AttributeNode v attr, indent, out =>
      let r := print_into v (indent + 4)
        (out ++ [(indent, "Attribute(" ++ attr ++ ")"), (indent + 2, "Value:")])
      (.AttributeNode r.1 attr, r.2)
  | .ListNode els, indent, out =>
      let out0 := out ++ [(indent, "List")]
      let r := if els.isEmpty then (els, out0)
        else print_into_list els (indent + 4) (out0 ++ [(indent + 2, "Elements:")])
      (.ListNode r.1, r.2)
  | .DictNode items, indent, out =>
      let out0 := out ++ [(indent, "Dict")]
      let r := if items.isEmpty then (items, out0)
        else print_into_items items indent (out0 ++ [(indent + 2, "Items:")])
      (.DictNode r.1, r.2)
  | .SubscriptNode v i, indent, out =>
      let rv := print_into v (indent + 4) (out ++ [(indent, "Subscript"), (indent + 2, "Value:")])
      let ri := print_into i (indent + 4) (rv.2 ++ [(indent + 2, "Index:")])
      (.SubscriptNode rv.1 ri.1, ri.2)
  | .PassNode, indent, out => (.PassNode, out ++ [(indent, "Pass")])
  | .BreakNode, indent, out => (.BreakNode, out ++ [(indent, "Break")])
  | .ContinueNode, indent, out => (.ContinueNode, out ++ [(indent, "Continue")])

/-- Stateful form of the child-list loops. -/
def print_into_list : List ASTNode → Nat → List (Nat × String) → List ASTNode × List (Nat × String)
  | [], _, out => ([], out)
  | n :: ns, indent, out =>
      let r := print_into n indent out
      let rs := print_into_list ns indent r.2
      (r.1 :: rs.1, rs.2)

/-- Stateful form of the keyword-argument loop. -/
def print_into_kwargs : List (String × ASTNode) → Nat → List (Nat × String) →
    List (String × ASTNode) × List (Nat × String)
  | [], _, out => ([], out)
  | (k, v) :: rest, indent, out =>
      let r := print_into v (indent + 6) (out ++ [(indent + 4, k ++ ":")])
      let rs := print_into_kwargs rest indent r.2
      ((k, r.1) :: rs.1, rs.2)

/-- Stateful form of the dictionary-item loop. -/
def print_into_items : List (ASTNode × ASTNode) → Nat → List (Nat × String) →
    List (ASTNode × ASTNode) × List (Nat × String)
  | [], _, out => ([], out)
  | (k, v) :: rest, indent, out =>
      let rk := print_into k (indent + 6) (out ++ [(indent + 4, "Key:")])
      let rv := print_into v (indent + 6) (rk.2 ++ [(indent + 4, "Value:")])
      let rs := print_into_items rest indent rv.2
      ((rk.1, rv.1) :: rs.1, rs.2)

end

example : rendered (.AssignmentNode (.IdentifierNode "x")
    (.BinaryOpNode "+" (.IntLiteralNode 1) (.IntLiteralNode 2))) 0 =
    "Assignment\n  Target:\n    Identifier(x)\n  Value:\n    BinaryOp(+)\n      IntLiteral(1)\n      IntLiteral(2)\n" := by
  decide

theorem print_node_list_eq (l : List ASTNode) (d : Nat) :
    print_node_list l d = (l.map (fun n => print_node n d)).flatten := by
  induction l with
  | nil => simp [print_node_list]
  | cons x xs ih => simp [print_node_list, ih]

theorem print_node_kwargs_eq (l : List (String × ASTNode)) (d : Nat) :
    print_node_kwargs l d =
      (l.map (fun kv => (d + 4, kv.1 ++ ":") :: print_node kv.2 (d + 6))).flatten := by
  induction l with
  | nil => simp [print_node_kwargs]
  | cons x xs ih => obtain ⟨k, v⟩ := x; simp [print_node_kwargs, ih]

theorem print_node_items_eq (l : List (ASTNode × ASTNode)) (d : Nat) :
    print_node_items l d =
      (l.map (fun kv => (d + 4, "Key:") :: (print_node kv.1 (d + 6)
        ++ (d + 4, "Value:") :: print_node kv.2 (d + 6)))).flatten := by
  induction l with
  | nil => simp [print_node_items]
  | cons x xs ih => obtain ⟨k, v⟩ := x; simp [print_node_items, ih]

mutual

theorem print_node_indent_le : ∀ (n : ASTNode) (d : Nat) (p : Nat × String),
    p ∈ print_node n d → d ≤ p.1
  | .IntLiteralNode v, d, p, hp => by simp [print_node] at hp; simp [hp]
  | .FloatLiteralNode v, d, p, hp => by simp [print_node] at hp; simp [hp]
  | .StringLiteralNode v f, d, p, hp => by simp [print_node] at hp; simp [hp]
  | .BoolLiteralNode v, d, p, hp => by simp [print_node] at hp; simp [hp]
  | .NoneLiteralNode, d, p, hp => by simp [print_node] at hp; simp [hp]
  | .IdentifierNode nm, d, p, hp => by simp [print_node] at hp; simp [hp]
  | .BinaryOpNode op l r, d, p, hp => by
      simp [print_node] at hp
      casesm* _ ∨ _ <;>
        first
          | (have hle := print_node_indent_le l (d + 2) p (by assumption); omega)
          | (have hle := print_node_indent_le r (d + 2) p (by assumption); omega)
          | (subst_vars; simp; try omega)
  | .AssignmentNode t v, d, p, hp => by
      simp [print_node] at hp
      casesm* _ ∨ _ <;>
        first
          | (have hle := print_node_indent_le t (d + 4) p (by assumption); omega)
          | (have hle := print_node_indent_le v (d + 4) p (by assumption); omega)
          | (subst_vars; simp; try omega)
  | .FunctionCallNode c args kw, d, p, hp => by
      cases hargs : args.isEmpty <;> cases hkw : kw.isEmpty <;>
        simp [print_node, hargs, hkw] at hp <;>
        casesm* _ ∨ _ <;>
        first
          | (have hle := print_node_indent_le c (d + 4) p (by assumption); omega)
          | (have hle := print_node_list_indent_le args (d + 4) p (by assumption); omega)
          | (have hle := print_node_kwargs_indent_le kw d p (by assumption); omega)
          | (subst_vars; simp; try omega)
  | .ParameterNode nm dv kwo, d, p, hp => by
      cases dv with
      | none => simp [print_node] at hp; simp [hp]
      | some v =>
          simp [print_node] at hp
          casesm* _ ∨ _ <;>
            first
              | (have hle := print_node_indent_le v (d + 4) p (by assumption); omega)
              | (subst_vars; simp; try omega)
  | .FunctionDefNode nm ps body, d, p, hp => by
      simp [print_node] at hp
      casesm* _ ∨ _ <;>
        first
          | (have hle := print_node_list_indent_le ps (d + 4) p (by assumption); omega)
          | (have hle := print_node_list_indent_le body (d + 4) p (by assumption); omega)
          | (subst_vars; simp; try omega)
  | .ClassDefNode nm bases body, d, p, hp => by
      cases hb : bases.isEmpty <;>
        simp [print_node, hb] at hp <;>
        casesm* _ ∨ _ <;>
        first
          | (have hle := print_node_list_indent_le bases (d + 4) p (by assumption); omega)
          | (have hle := print_node_list_indent_le body (d + 4) p (by assumption); omega)
          | (subst_vars; simp; try omega)
  | .ReturnNode v, d, p, hp => by
      cases v with
      | none => simp [print_node] at hp; simp [hp]
      | some v =>
          simp [print_node] at hp
          casesm* _ ∨ _ <;>
            first
              | (have hle := print_node_indent_le v (d + 2) p (by assumption); omega)
              | (subst_vars; simp; try omega)
  | .ImportNode m a, d, p, hp => by simp [print_node] at hp; simp [hp]
  | .FromImportNode m imps, d, p, hp => by
      simp [print_node] at hp
      rcases hp with h | h | ⟨a, b, hab, h⟩
      · subst_vars; simp
      · subst_vars; simp
      · subst h; exact Nat.le_add_right d 4
  | .IfNode c tb eb, d, p, hp => by
      cases he : eb.isEmpty <;>
        simp [print_node, he] at hp <;>
        casesm* _ ∨ _ <;>
        first
          | (have hle := print_node_indent_le c (d + 4) p (by assumption); omega)
          | (have hle := print_node_list_indent_le tb (d + 4) p (by assumption); omega)
          | (have hle := print_node_list_indent_le eb (d + 4) p (by assumption); omega)
          | (subst_vars; simp; try omega)
  | .WhileNode c body, d, p, hp => by
      simp [print_node] at hp
      casesm* _ ∨ _ <;>
        first
          | (have hle := print_node_indent_le c (d + 4) p (by assumption); omega)
          | (have hle := print_node_list_indent_le body (d + 4) p (by assumption); omega)
          | (subst_vars; simp; try omega)
  | .ForNode t it body, d, p, hp => by
      simp [print_node] at hp
      casesm* _ ∨ _ <;>
        first
          | (have hle := print_node_indent_le t (d + 4) p (by assumption); omega)
          | (have hle := print_node_indent_le it (d + 4) p (by assumption); omega)
          | (have hle := print_node_list_indent_le body (d + 4) p (by assumption); omega)
          | (subst_vars; simp; try omega)
  | .AttributeNode v a, d, p, hp => by
      simp [print_node] at hp
      casesm* _ ∨ _ <;>
        first
          | (have hle := print_node_indent_le v (d + 4) p (by assumption); omega)
          | (subst_vars; simp; try omega)
  | .ListNode els, d, p, hp => by
      cases he : els.isEmpty <;>
        simp [print_node, he] at hp <;>
        try casesm* _ ∨ _
      all_goals
        first
          | (have hle := print_node_list_indent_le els (d + 4) p (by assumption); omega)
          | (subst_vars; simp; try omega)
  | .DictNode items, d, p, hp => by
      cases hi : items.isEmpty <;>
        simp [print_node, hi] at hp <;>
        try casesm* _ ∨ _
      all_goals
        first
          | (have hle := print_node_items_indent_le items d p (by assumption); omega)
          | (subst_vars; simp; try omega)
  | .SubscriptNode v i, d, p, hp => by
      simp [print_node] at hp
      casesm* _ ∨ _ <;>
        first
          | (have hle := print_node_indent_le v (d + 4) p (by assumption); omega)
          | (have hle := print_node_indent_le i (d + 4) p (by assumption); omega)
          | (subst_vars; simp; try omega)
  | .PassNode, d, p, hp => by simp [print_node] at hp; simp [hp]
  | .BreakNode, d, p, hp => by simp [print_node] at hp; simp [hp]
  | .ContinueNode, d, p, hp => by simp [print_node] at hp; simp [hp]

theorem print_node_list_indent_le : ∀ (l : List ASTNode) (d : Nat) (p : Nat × String),
    p ∈ print_node_list l d → d ≤ p.1
  | [], _, p, hp => by simp [print_node_list] at hp
  | n :: ns, d, p, hp => by
      simp only [print_node_list, List.mem_append] at hp
      rcases hp with h | h
      · exact print_node_indent_le n d p h
      · exact print_node_list_indent_le ns d p h

theorem print_node_kwargs_indent_le : ∀ (l : List (String × ASTNode)) (d : Nat) (p : Nat × String),
    p ∈ print_node_kwargs l d → d + 4 ≤ p.1
  | [], _, p, hp => by simp [print_node_kwargs] at hp
  | (k, v) :: rest, d, p, hp => by
      simp only [print_node_kwargs, List.mem_cons, List.mem_append] at hp
      casesm* _ ∨ _ <;>
        first
          | (have hle := print_node_indent_le v (d + 6) p (by assumption); omega)
          | (have hle := print_node_kwargs_indent_le rest d p (by assumption); omega)
          | (subst_vars; simp; try omega)

theorem print_node_items_indent_le : ∀ (l : List (ASTNode × ASTNode)) (d : Nat) (p : Nat × String),
    p ∈ print_node_items l d → d + 4 ≤ p.1
  | [], _, p, hp => by simp [print_node_items] at hp
  | (k, v) :: rest, d, p, hp => by
      simp only [print_node_items, List.mem_cons, List.mem_append] at hp
      casesm* _ ∨ _ <;>
        first
          | (have hle := print_node_indent_le k (d + 6) p (by assumption); omega)
          | (have hle := print_node_indent_le v (d + 6) p (by assumption); omega)
          | (have hle := print_node_items_indent_le rest d p (by assumption); omega)
          | (subst_vars; simp; try omega)

end

mutual

theorem print_into_eq : ∀ (n : ASTNode) (d : Nat) (out : List (Nat × String)),
    print_into n d out = (n, out ++ print_node n d)
  | .IntLiteralNode v, d, out => by simp [print_into, print_node]
  | .FloatLiteralNode v, d, out => by simp [print_into, print_node]
  | .StringLiteralNode v f, d, out => by simp [print_into, print_node]
  | .BoolLiteralNode v, d, out => by simp [print_into, print_node]
  | .NoneLiteralNode, d, out => by simp [print_into, print_node]
  | .IdentifierNode nm, d, out => by simp [print_into, print_node]
  | .BinaryOpNode op l r, d, out => by
      simp [print_into, print_node, print_into_eq l (d + 2), print_into_eq r (d + 2)]
  | .AssignmentNode t v, d, out => by
      simp [print_into, print_node, print_into_eq t (d + 4), print_into_eq v (d + 4)]
  | .FunctionCallNode c args kw, d, out => by
      cases hargs : args.isEmpty <;> cases hkw : kw.isEmpty <;>
        simp [print_into, print_node, hargs, hkw, print_into_eq c (d + 4),
          print_into_list_eq args (d + 4), print_into_kwargs_eq kw d]
  | .ParameterNode nm dv kwo, d, out => by
      cases dv with
      | none => simp [print_into, print_node]
      | some v => simp [print_into, print_node, print_into_eq v (d + 4)]
  | .FunctionDefNode nm ps body, d, out => by
      simp [print_into, print_node, print_into_list_eq ps (d + 4), print_into_list_eq body (d + 4)]
  | .ClassDefNode nm bases body, d, out => by
      cases hb : bases.isEmpty <;>
        simp [print_into, print_node, hb, print_into_list_eq bases (d + 4),
          print_into_list_eq body (d + 4)]
  | .ReturnNode v, d, out => by
      cases v with
      | none => simp [print_into, print_node]
      | some v => simp [print_into, print_node, print_into_eq v (d + 2)]
  | .ImportNode m a, d, out => by simp [print_into, print_node]
  | .FromImportNode m imps, d, out => by simp [print_into, print_node]
  | .IfNode c tb eb, d, out => by
      cases he : eb.isEmpty <;>
        simp [print_into, print_node, he, print_into_eq c (d + 4),
          print_into_list_eq tb (d + 4), print_into_list_eq eb (d + 4)]
  | .WhileNode c body, d, out => by
      simp [print_into, print_node, print_into_eq c (d + 4), print_into_list_eq body (d + 4)]
  | .ForNode t it body, d, out => by
      simp [print_into, print_node, print_into_eq t (d + 4), print_into_eq it (d + 4),
        print_into_list_eq body (d + 4)]
  | .AttributeNode v a, d, out => by
      simp [print_into, print_node, print_into_eq v (d + 4)]
  | .ListNode els, d, out => by
      cases he : els.isEmpty <;>
        simp [print_into, print_node, he, print_into_list_eq els (d + 4)]
  | .DictNode items, d, out => by
      cases hi : items.isEmpty <;>
        simp [print_into, print_node, hi, print_into_items_eq items d]
  | .SubscriptNode v i, d, out => by
      simp [print_into, print_node, print_into_eq v (d + 4), print_into_eq i (d + 4)]
  | .PassNode, d, out => by simp [print_into, print_node]
  | .BreakNode, d, out => by simp [print_into, print_node]
  | .ContinueNode, d, out => by simp [print_into, print_node]

theorem print_into_list_eq : ∀ (l : List ASTNode) (d : Nat) (out : List (Nat × String)),
    print_into_list l d out = (l, out ++ print_node_list l d)
  | [], d, out => by simp [print_into_list, print_node_list]
  | n :: ns, d, out => by
      simp [print_into_list, print_node_list, print_into_eq n d, print_into_list_eq ns d]

theorem print_into_kwargs_eq : ∀ (l : List (String × ASTNode)) (d : Nat) (out : List (Nat × String)),
    print_into_kwargs l d out = (l, out ++ print_node_kwargs l d)
  | [], d, out => by simp [print_into_kwargs, print_node_kwargs]
  | (k, v) :: rest, d, out => by
      simp [print_into_kwargs, print_node_kwargs, print_into_eq v (d + 6),
        print_into_kwargs_eq rest d]

theorem print_into_items_eq : ∀ (l : List (ASTNode × ASTNode)) (d : Nat) (out : List (Nat × String)),
    print_into_items l d out = (l, out ++ print_node_items l d)
  | [], d, out => by simp [print_into_items, print_node_items]
  | (k, v) :: rest, d, out => by
      simp [print_into_items, print_node_items, print_into_eq k (d + 6), print_into_eq v (d + 6),
        print_into_items_eq rest d]

end

/-- C1: for every AST node variant and every starting indentation depth `d`,
`print_node` first prints the variant's tag line (with its inline payload)
at exactly `d` spaces, prints each labeled sub-header at `d + 2` spaces,
and recurses into children two deeper than their governing header line
(`d + 2` for the directly recursed children of BinaryOp/Return, `d + 4`
under a sub-header), with the nested label/value pairs of dictionary
entries and keyword arguments labeled at `d + 4` and recursed at `d + 6`,
and a parameter's default value labeled at `d + 2` and recursed at `d + 4`. -/
theorem spec_c1 (d : Nat) :
    (∀ v : Int, print_node (.IntLiteralNode v) d = [(d, "IntLiteral(" ++ toString v ++ ")")]) ∧
    (∀ v : String, print_node (.FloatLiteralNode v) d = [(d, "FloatLiteral(" ++ v ++ ")")]) ∧
    (∀ v f, print_node (.StringLiteralNode v f) d =
      [(d, (if f then "FString" else "StringLiteral") ++ "(\"" ++ v ++ "\")")]) ∧
    (∀ b : Bool, print_node (.BoolLiteralNode b) d =
      [(d, "BoolLiteral(" ++ (if b then "True" else "False") ++ ")")]) ∧
    (print_node .NoneLiteralNode d = [(d, "None")]) ∧
    (∀ nm, print_node (.IdentifierNode nm) d = [(d, "Identifier(" ++ nm ++ ")")]) ∧
    (∀ op l r, print_node (.BinaryOpNode op l r) d =
      [(d, "BinaryOp(" ++ op ++ ")")] ++ print_node l (d + 2) ++ print_node r (d + 2)) ∧
    (∀ t v, print_node (.AssignmentNode t v) d =
      [(d, "Assignment"), (d + 2, "Target:")] ++ print_node t (d + 4)
        ++ [(d + 2, "Value:")] ++ print_node v (d + 4)) ∧
    (∀ c args kw, print_node (.FunctionCallNode c args kw) d =
      [(d, "FunctionCall"), (d + 2, "Callable:")] ++ print_node c (d + 4)
        ++ (if args.isEmpty then [] else
              [(d + 2, "Arguments:")] ++ (args.map (fun a => print_node a (d + 4))).flatten)
        ++ (if kw.isEmpty then [] else
              [(d + 2, "Keyword Arguments:")] ++
                (kw.map (fun kv => [(d + 4, kv.1 ++ ":")] ++ print_node kv.2 (d + 6))).flatten)) ∧
    (∀ nm kwo, print_node (.ParameterNode nm none kwo) d =
      [(d, "Parameter(" ++ (nm ++ (if kwo then ", keyword-only" else "")) ++ ")")]) ∧
    (∀ nm v kwo, print_node (.ParameterNode nm (some v) kwo) d =
      [(d, "Parameter(" ++ (nm ++ (if kwo then ", keyword-only" else "")) ++ ")")]
        ++ [(d + 2, "Default Value:")] ++ print_node v (d + 4)) ∧
    (∀ nm ps body, print_node (.FunctionDefNode nm ps body) d =
      [(d, "FunctionDef(" ++ nm ++ ")"), (d + 2, "Parameters:")]
        ++ (ps.map (fun a => print_node a (d + 4))).flatten
        ++ [(d + 2, "Body:")] ++ (body.map (fun a => print_node a (d + 4))).flatten) ∧
    (∀ nm bases body, print_node (.ClassDefNode nm bases body) d =
      [(d, "ClassDef(" ++ nm ++ ")")]
        ++ (if bases.isEmpty then [] else
              [(d + 2, "Bases:")] ++ (bases.map (fun a => print_node a (d + 4))).flatten)
        ++ [(d + 2, "Body:")] ++ (body.map (fun a => print_node a (d + 4))).flatten) ∧
    (print_node (.ReturnNode none) d = [(d, "Return")]) ∧
    (∀ v, print_node (.ReturnNode (some v)) d = [(d, "Return")] ++ print_node v (d + 2)) ∧
    (∀ m a, print_node (.ImportNode m a) d =
      [(d, "Import(" ++ (m ++ (if a = "" then "" else " as " ++ a)) ++ ")")]) ∧
    (∀ m imps, print_node (.FromImportNode m imps) d =
      [(d, "FromImport(" ++ m ++ ")"), (d + 2, "Names:")]
        ++ imps.map (fun nv => (d + 4, nv.1 ++ (if nv.2 = "" then "" else " as " ++ nv.2)))) ∧
    (∀ c tb eb, print_node (.IfNode c tb eb) d =
      [(d, "If"), (d + 2, "Condition:")] ++ print_node c (d + 4)
        ++ [(d + 2, "Then:")] ++ (tb.map (fun a => print_node a (d + 4))).flatten
        ++ (if eb.isEmpty then [] else
              [(d + 2, "Else:")] ++ (eb.map (fun a => print_node a (d + 4))).flatten)) ∧
    (∀ c body, print_node (.WhileNode c body) d =
      [(d, "While"), (d + 2, "Condition:")] ++ print_node c (d + 4)
        ++ [(d + 2, "Body:")] ++ (body.map (fun a => print_node a (d + 4))).flatten) ∧
    (∀ t it body, print_node (.ForNode t it body) d =
      [(d, "For"), (d + 2, "Target:")] ++ print_node t (d + 4)
        ++ [(d + 2, "Iterable:")] ++ print_node it (d + 4)
        ++ [(d + 2, "Body:")] ++ (body.map (fun a => print_node a (d + 4))).flatten) ∧
    (∀ v a, print_node (.AttributeNode v a) d =
      [(d, "Attribute(" ++ a ++ ")"), (d + 2, "Value:")] ++ print_node v (d + 4)) ∧
    (∀ els, print_node (.ListNode els) d =
      [(d, "List")] ++ (if els.isEmpty then [] else
        [(d + 2, "Elements:")] ++ (els.map (fun a => print_node a (d + 4))).flatten)) ∧
    (∀ items, print_node (.DictNode items) d =
      [(d, "Dict")] ++ (if items.isEmpty then [] else
        [(d + 2, "Items:")] ++ (items.map (fun kv =>
          [(d + 4, "Key:")] ++ print_node kv.1 (d + 6)
            ++ [(d + 4, "Value:")] ++ print_node kv.2 (d + 6))).flatten)) ∧
    (∀ v i, print_node (.SubscriptNode v i) d =
      [(d, "Subscript"), (d + 2, "Value:")] ++ print_node v (d + 4)
        ++ [(d + 2, "Index:")] ++ print_node i (d + 4)) ∧
    (print_node .PassNode d = [(d, "Pass")]) ∧
    (print_node .BreakNode d = [(d, "Break")]) ∧
    (print_node .ContinueNode d = [(d, "Continue")]) := by
  refine ⟨?_, ?_, ?_, ?_, ?_, ?_, ?_, ?_, ?_, ?_, ?_, ?_, ?_, ?_, ?_, ?_, ?_, ?_, ?_, ?_,
    ?_, ?_, ?_, ?_, ?_, ?_, ?_⟩ <;>
  intros <;>
  simp [print_node, print_node_list_eq, print_node_kwargs_eq, print_node_items_eq]

/-- C3: every list-valued field is rendered by a loop that emits each
entry's rendering in list order, concatenated with no reordering,
duplication or omission; keyword arguments follow the association list's
(= dict insertion) order, and FromImport name/alias pairs are mapped in
source order. -/
theorem spec_c3 :
    (∀ (l : List ASTNode) (d : Nat),
        print_node_list l d = (l.map (fun n => print_node n d)).flatten) ∧
    (∀ (kw : List (String × ASTNode)) (d : Nat),
        print_node_kwargs kw d =
          (kw.map (fun kv => (d + 4, kv.1 ++ ":") :: print_node kv.2 (d + 6))).flatten) ∧
    (∀ (items : List (ASTNode × ASTNode)) (d : Nat),
        print_node_items items d =
          (items.map (fun kv => (d + 4, "Key:") :: (print_node kv.1 (d + 6)
            ++ (d + 4, "Value:") :: print_node kv.2 (d + 6)))).flatten) ∧
    (∀ (m : String) (imps : List (String × String)) (d : Nat),
        print_node (.FromImportNode m imps) d =
          (d, "FromImport(" ++ m ++ ")") :: (d + 2, "Names:") ::
            imps.map (fun nv => (d + 4, nv.1 ++ (if nv.2 = "" then "" else " as " ++ nv.2)))) :=
  ⟨print_node_list_eq, print_node_kwargs_eq, print_node_items_eq,
    fun m imps d => by simp [print_node]⟩

/-- C4: rendering is deterministic — two invocations of `print_node` on
the same node value at the same depth produce byte-identical text. -/
theorem spec_c4 (n₁ n₂ : ASTNode) (d₁ d₂ : Nat) (hn : n₁ = n₂) (hd : d₁ = d₂) :
    rendered n₁ d₁ = rendered n₂ d₂ := by
  subst hn; subst hd; rfl

/-- Witness for C4 at a concrete node and depth. -/
theorem spec_c4_witness :
    rendered (.ImportNode "os" "") 0 = rendered (.ImportNode "os" "") 0 :=
  spec_c4 (.ImportNode "os" "") (.ImportNode "os" "") 0 0 rfl rfl

/-- C5: rendering has no effect beyond the emitted text — running the
printer against any already-produced output only appends the pure
rendering of the node to it, and the tree as observed by the traversal
(every field of the node and of all descendants) is unchanged. -/
theorem spec_c5 (n : ASTNode) (d : Nat) (out : List (Nat × String)) :
    print_into n d out = (n, out ++ print_node n d) :=
  print_into_eq n d out

/-- C7: rendering is not injective — two Import nodes with distinct field
values render to byte-identical text at the same depth, so the trace
cannot be round-tripped back into the same AST. -/
theorem spec_c7 :
    (ASTNode.ImportNode "m as n" "" ≠ ASTNode.ImportNode "m" "n") ∧
    print_node (.ImportNode "m as n" "") 0 = print_node (.ImportNode "m" "n") 0 ∧
    rendered (.ImportNode "m as n" "") 0 = rendered (.ImportNode "m" "n") 0 := by
  refine ⟨?_, by decide, by decide⟩
  intro h
  injection h with h1 h2
  exact absurd h1 (by decide)

theorem py_or_empty_none {α : Type} : py_or_empty (none : Option (List α)) = [] := rfl

theorem py_or_empty_some {α : Type} (l : List α) : py_or_empty (some l) = l := by
  cases l <;> simp [py_or_empty]

/-- C8: every constructor with collection-valued fields replaces an
omitted/None argument by an empty collection, and keeps a supplied
collection as is (an empty supplied collection is likewise replaced by an
empty one, which is the same value), so every constructed node's
collection field is an actual list/mapping and `print_node` never
iterates over an absent collection. -/
theorem spec_c8 :
    (∀ c, FunctionCallNode_init c none none = .FunctionCallNode c [] []) ∧
    (∀ c args kw, FunctionCallNode_init c (some args) (some kw) = .FunctionCallNode c args kw) ∧
    (∀ nm, FunctionDefNode_init nm none none = .FunctionDefNode nm [] []) ∧
    (∀ nm ps body, FunctionDefNode_init nm (some ps) (some body) = .FunctionDefNode nm ps body) ∧
    (∀ nm, ClassDefNode_init nm none none = .ClassDefNode nm [] []) ∧
    (∀ nm bs body, ClassDefNode_init nm (some bs) (some body) = .ClassDefNode nm bs body) ∧
    (∀ c, IfNode_init c none none = .IfNode c [] []) ∧
    (∀ c tb eb, IfNode_init c (some tb) (some eb) = .IfNode c tb eb) ∧
    (∀ c, WhileNode_init c none = .WhileNode c []) ∧
    (∀ c b, WhileNode_init c (some b) = .WhileNode c b) ∧
    (∀ t it, ForNode_init t it none = .ForNode t it []) ∧
    (∀ t it b, ForNode_init t it (some b) = .ForNode t it b) ∧
    (ListNode_init none = .ListNode []) ∧
    (∀ els, ListNode_init (some els) = .ListNode els) ∧
    (DictNode_init none = .DictNode []) ∧
    (∀ items, DictNode_init (some items) = .DictNode items) ∧
    (∀ m, FromImportNode_init m none = .FromImportNode m []) ∧
    (∀ m imps, FromImportNode_init m (some imps) = .FromImportNode m imps) := by
  refine ⟨?_, ?_, ?_, ?_, ?_, ?_, ?_, ?_, ?_, ?_, ?_, ?_, ?_, ?_, ?_, ?_, ?_, ?_⟩ <;>
  intros <;>
  simp [FunctionCallNode_init, FunctionDefNode_init, ClassDefNode_init, IfNode_init,
    WhileNode_init, ForNode_init, ListNode_init, DictNode_init, FromImportNode_init,
    py_or_empty_none, py_or_empty_some]

/-- C10: an Import tag line carries the `" as <alias>"` suffix exactly
when the alias string is non-empty, and a FromImport entry carries it
exactly when that entry's alias is non-empty — so an empty-string alias
renders identically to an absent one. -/
theorem spec_c10 (d : Nat) :
    (∀ m a, print_node (.ImportNode m a) d =
      [(d, if a = "" then "Import(" ++ m ++ ")" else "Import(" ++ m ++ " as " ++ a ++ ")")]) ∧
    (∀ m imps, print_node (.FromImportNode m imps) d =
      (d, "FromImport(" ++ m ++ ")") :: (d + 2, "Names:") ::
        imps.map (fun nv => (d + 4, if nv.2 = "" then nv.1 else nv.1 ++ " as " ++ nv.2))) := by
  have key : ∀ (s : String) (a : String),
      s ++ (if a = "" then "" else " as " ++ a) =
        (if a = "" then s else s ++ " as " ++ a) := by
    intro s a
    rcases eq_or_ne a "" with h | h <;> simp [h, String.append_assoc]
  constructor
  · intro m a
    rcases eq_or_ne a "" with h | h <;> simp [print_node, h, String.append_assoc]
  · intro m imps
    simp only [print_node, key]

/-- C2 counterexample: when the child-group is empty its sub-header is
not printed — a FunctionCall with no arguments and no keyword arguments
prints neither "Arguments:" nor "Keyword Arguments:", a base-less
ClassDef prints no "Bases:", an empty List no "Elements:", an empty Dict
no "Items:", and an If with an empty else-body no "Else:". -/
theorem spec_c2_counterexample :
    "Arguments:" ∉ (print_node (.FunctionCallNode (.IdentifierNode "f") [] []) 0).map Prod.snd ∧
    "Keyword Arguments:" ∉
      (print_node (.FunctionCallNode (.IdentifierNode "f") [] []) 0).map Prod.snd ∧
    "Bases:" ∉ (print_node (.ClassDefNode "C" [] [.PassNode]) 0).map Prod.snd ∧
    "Elements:" ∉ (print_node (.ListNode []) 0).map Prod.snd ∧
    "Items:" ∉ (print_node (.DictNode []) 0).map Prod.snd ∧
    "Else:" ∉ (print_node (.IfNode (.IdentifierNode "x") [.PassNode] []) 0).map Prod.snd := by
  decide

/-- C2 (amended): a conditional child-group's labeled sub-header is
printed exactly when the group is non-empty. -/
theorem spec_c2 (d : Nat) (c : ASTNode) (args : List ASTNode) (kw : List (String × ASTNode))
    (nm : String) (bases body : List ASTNode) (cond : ASTNode) (tb eb : List ASTNode)
    (els : List ASTNode) (items : List (ASTNode × ASTNode)) :
    ((d + 2, "Arguments:") ∈ print_node (.FunctionCallNode c args kw) d ↔ args ≠ []) ∧
    ((d + 2, "Keyword Arguments:") ∈ print_node (.FunctionCallNode c args kw) d ↔ kw ≠ []) ∧
    ((d + 2, "Bases:") ∈ print_node (.ClassDefNode nm bases body) d ↔ bases ≠ []) ∧
    ((d + 2, "Elements:") ∈ print_node (.ListNode els) d ↔ els ≠ []) ∧
    ((d + 2, "Items:") ∈ print_node (.DictNode items) d ↔ items ≠ []) ∧
    ((d + 2, "Else:") ∈ print_node (.IfNode cond tb eb) d ↔ eb ≠ []) := by
  refine ⟨?_, ?_, ?_, ?_, ?_, ?_⟩
  · cases args with
    | nil =>
        simp only [ne_eq, not_true_eq_false, iff_false]
        intro hmem
        cases hkw : kw.isEmpty <;> simp [print_node, hkw] at hmem <;> try casesm* _ ∨ _
        all_goals
          first
            | (have hle := print_node_indent_le c (d + 4) _ (by assumption); simp at hle; try omega)
            | (have hle := print_node_kwargs_indent_le kw d _ (by assumption); simp at hle; try omega)
    | cons a as => simp [print_node]
  · cases kw with
    | nil =>
        simp only [ne_eq, not_true_eq_false, iff_false]
        intro hmem
        cases hargs : args.isEmpty <;> simp [print_node, hargs] at hmem <;> try casesm* _ ∨ _
        all_goals
          first
            | (have hle := print_node_indent_le c (d + 4) _ (by assumption); simp at hle; try omega)
            | (have hle := print_node_list_indent_le args (d + 4) _ (by assumption); simp at hle; try omega)
    | cons a as =>
        simp only [ne_eq, not_false_eq_true, iff_true]
        cases hargs : args.isEmpty <;> simp [print_node, hargs]
  · cases bases with
    | nil =>
        simp only [ne_eq, not_true_eq_false, iff_false]
        intro hmem
        simp [print_node] at hmem
        try casesm* _ ∨ _
        all_goals
          first
            | (have hle := print_node_list_indent_le body (d + 4) _ (by assumption); simp at hle; try omega)
    | cons a as => simp [print_node]
  · cases els with
    | nil =>
        simp only [ne_eq, not_true_eq_false, iff_false]
        intro hmem
        simp [print_node] at hmem
    | cons a as => simp [print_node]
  · cases items with
    | nil =>
        simp only [ne_eq, not_true_eq_false, iff_false]
        intro hmem
        simp [print_node] at hmem
    | cons a as => simp [print_node]
  · cases eb with
    | nil =>
        simp only [ne_eq, not_true_eq_false, iff_false]
        intro hmem
        simp [print_node] at hmem
        try casesm* _ ∨ _
        all_goals
          first
            | (have hle := print_node_indent_le cond (d + 4) _ (by assumption); simp at hle; try omega)
            | (have hle := print_node_list_indent_le tb (d + 4) _ (by assumption); simp at hle; try omega)
    | cons a as => simp [print_node]

/-- C6 counterexample: the driver maps a LexicalError and an
InternalError to byte-identical output — the same "Error: " prefix — so
the four taxonomy members are not mapped to four distinct user-facing
message prefixes. -/
theorem spec_c6_counterexample :
    main_run "prog.py" (.lexicalError "boom") = (["Error: boom"], 1) ∧
    main_run "prog.py" (.internalError "boom") = (["Error: boom"], 1) ∧
    main_run "prog.py" (.lexicalError "boom") = main_run "prog.py" (.internalError "boom") := by
  exact ⟨rfl, rfl, rfl⟩

/-- C6 (amended): every failing run prints one error message and returns
exit status 1; a file-access failure's message names the input file;
FileAccessError, SyntaxError and the generic handler give three distinct
prefixes ("Error: Could not open file", "Syntax Error:", "Error:"), but
LexicalError and InternalError share the generic "Error:" prefix. -/
theorem spec_c6 (f m : String) :
    (main_run f .fileAccessError).2 = 1 ∧
    (main_run f (.synError m)).2 = 1 ∧
    (main_run f (.lexicalError m)).2 = 1 ∧
    (main_run f (.internalError m)).2 = 1 ∧
    (main_run f .fileAccessError).1 = ["Error: Could not open file " ++ f] ∧
    (main_run f (.synError m)).1 = ["Syntax Error: " ++ m] ∧
    (main_run f (.lexicalError m)).1 = ["Error: " ++ m] ∧
    (main_run f (.internalError m)).1 = ["Error: " ++ m] :=
  ⟨rfl, rfl, rfl, rfl, rfl, rfl, rfl, rfl⟩

/-- C9 counterexample: `ast_nodes.py` defines 25 concrete node variants,
not 26 (the file's 26 classes include the abstract `ASTNode` base). -/
theorem spec_c9_counterexample :
    concrete_ast_variants.length = 25 ∧ concrete_ast_variants.length ≠ 26 ∧
    concrete_ast_variants.Nodup := by
  decide

/-- C9 (amended): every node belongs to one of the 25 concrete variants,
each of which overrides `print_node`, so the dispatched call never falls
through to the base class's `NotImplementedError` fallback on any tree
built from concrete variants. -/
theorem spec_c9 (n : ASTNode) (d : Nat) :
    ctorName n ∈ concrete_ast_variants ∧
    print_node_checked n d = .ok (print_node n d) := by
  have hm : ctorName n ∈ concrete_ast_variants := by
    cases n <;> simp [ctorName, concrete_ast_variants]
  exact ⟨hm, by simp [print_node_checked, hm]⟩
